import Mathlib

/-!
Shallow embedding of the PassBi Python SDK client
(`src/sdks/python/passbi_client.py`) and proofs about its behaviour.

The embedding models:
  * JSON values (`Json`) together with Python truthiness, since the client
    treats response bodies as plain parsed JSON and uses `or`-chains on
    field lookups;
  * Python's built-in `int()` conversion on ASCII strings (`pyInt`), used by
    `_extract_rate_limit_info` on header values — note that `int()` RAISES
    `ValueError` on a non-numeric string rather than defaulting;
  * the response-header map as an association list with case-insensitive
    lookup (requests exposes headers as a `CaseInsensitiveDict`);
  * the client state (`ClientState`), whose `rate_limit_info` dictionary is
    modelled as an association list from field names to integers — the
    constructor sets it to the EMPTY dictionary `{}`, hence the empty list;
  * the transport outcome of one HTTP round trip (`Transport`): a response,
    a timeout exception, or another `requests.exceptions.RequestException`;
  * exceptions as an `Except` result: Python `ValueError` becomes
    `PBError.validationError`, `PassBiError` becomes `PBError.apiError`,
    the `ValueError` raised by `int()` inside `_extract_rate_limit_info`
    becomes `PBError.headerParseError`, a JSON-decode failure of the body
    becomes `PBError.decodeError`, and the `AttributeError` raised by
    `data.get` when the parsed body is not a dict becomes
    `PBError.attributeError`.

Every method returns the (possibly updated) client state, the list of HTTP
requests actually dispatched to the session during the call (always `[]` or
a singleton: the client never retries), and the result.
-/

namespace PassBi

/-- Parsed JSON values, as returned by `response.json()` in the source.
Numbers are modelled as integers; no claim depends on float payloads. -/
inductive Json where
  | null : Json
  | bool : Bool → Json
  | num : Int → Json
  | str : String → Json
  | arr : List Json → Json
  | obj : List (String × Json) → Json
deriving Repr

/-- Python truthiness of a JSON value: `None`, `False`, `0`, `""`, `[]` and
`{}` are falsy, everything else truthy. -/
def Json.truthy : Json → Bool
  | .null => false
  | .bool b => b
  | .num n => n != 0
  | .str s => s ≠ ""
  | .arr xs => !xs.isEmpty
  | .obj fs => !fs.isEmpty

/-- `data.get(key)` on a parsed JSON dict: the value stored under `key`, or
`none` when absent.  Returns `none` as well when the value is not a dict
(the caller guards that case separately, see `attributeError`). -/
def Json.get? (v : Json) (key : String) : Option Json :=
  match v with
  | .obj fs => (fs.find? fun p => p.1 = key).map (·.2)
  | _ => none

/-- Whether the JSON value is a dict, i.e. has the `.get` attribute. -/
def Json.isObj : Json → Bool
  | .obj _ => true
  | _ => false

/-- Python comparison `v == s` between a JSON value and a string literal:
true exactly when `v` is that string; a non-string never equals a string. -/
def Json.eqStr (v : Json) (s : String) : Bool :=
  match v with
  | .str t => t = s
  | _ => false

/-- ASCII whitespace stripped by Python's `int()` around the literal. -/
def pyWs (c : Char) : Bool :=
  c = ' ' || c = '\t' || c = '\n' || c = '\r' || c = '\x0b' || c = '\x0c'

/-- Scanner for the digit part of a Python integer literal after its first
digit: single underscores are allowed between digits only.  `lastU` records
whether the previous character was an underscore.  Returns the digits with
the underscores removed, or `none` when the grammar is violated. -/
def pyDigitsGo : List Char → Bool → List Char → Option (List Char)
  | [], lastU, acc => if lastU then none else some acc.reverse
  | c :: rest, lastU, acc =>
    if c.isDigit then pyDigitsGo rest false (c :: acc)
    else if c = '_' then (if lastU then none else pyDigitsGo rest true acc)
    else none

/-- The digit part of a Python integer literal: at least one digit, single
underscores permitted between digits. -/
def pyDigits : List Char → Option (List Char)
  | [] => none
  | c :: rest => if c.isDigit then pyDigitsGo rest false [c] else none

/-- Value of a list of decimal digits. -/
def digitsVal (cs : List Char) : Int :=
  cs.foldl (fun acc c => 10 * acc + (c.toNat - '0'.toNat : Int)) 0

/-- Models Python's built-in `int()` applied to an ASCII string: optional
surrounding whitespace, an optional sign, then decimal digits (single
underscores allowed between digits).  `none` models the `ValueError`
raised on any other string. -/
def pyInt (s : String) : Option Int :=
  let cs := ((s.data.dropWhile pyWs).reverse.dropWhile pyWs).reverse
  match cs with
  | '+' :: rest => (pyDigits rest).map digitsVal
  | '-' :: rest => (pyDigits rest).map (fun ds => -(digitsVal ds))
  | _ => (pyDigits cs).map digitsVal

/-- Response headers: an association list of name/value pairs. -/
abbrev Headers := List (String × String)

/-- Lower-casing of a string, character by character (models the ASCII
lower-casing `CaseInsensitiveDict` applies to header names). -/
def lowerStr (s : String) : String :=
  ⟨s.data.map Char.toLower⟩

/-- `headers.get(k)` on a `requests.structures.CaseInsensitiveDict`:
lookup is case-insensitive. -/
def headerValue? (headers : Headers) (k : String) : Option String :=
  (List.find? (fun p => lowerStr p.1 = lowerStr k) headers).map (·.2)

/-- `int(headers.get(k, 0))` from `_extract_rate_limit_info`: an absent
header yields the default `0` (and `int(0)` is `0`); a present header is a
string fed to `int()`, which yields its value or raises (`none`). -/
def headerInt (headers : Headers) (k : String) : Option Int :=
  match headerValue? headers k with
  | none => some 0
  | some s => pyInt s

/-- The `rate_limit_info` dictionary of the client, keyed by field name.
The constructor initializes it to the EMPTY dictionary. -/
abbrev RateLimitDict := List (String × Int)

/-- Lookup of one field of the rate-limit dictionary. -/
def rlLookup (d : RateLimitDict) (k : String) : Option Int :=
  (List.find? (fun p => p.1 = k) d).map (·.2)

/-- `_extract_rate_limit_info`: builds the six-field dictionary from the
response headers.  The whole dict literal is evaluated before the
assignment, so if any single `int()` call raises, nothing is assigned
(`none`). -/
def extractRateLimitInfo (headers : Headers) : Option RateLimitDict := do
  let ls ← headerInt headers "X-RateLimit-Limit-Second"
  let rs ← headerInt headers "X-RateLimit-Remaining-Second"
  let ld ← headerInt headers "X-RateLimit-Limit-Day"
  let rd ← headerInt headers "X-RateLimit-Remaining-Day"
  let lm ← headerInt headers "X-RateLimit-Limit-Month"
  let rm ← headerInt headers "X-RateLimit-Remaining-Month"
  return [("limit_second", ls), ("remaining_second", rs),
          ("limit_day", ld), ("remaining_day", rd),
          ("limit_month", lm), ("remaining_month", rm)]

/-- The `PassBiError` exception: message (the picked JSON value — in Python
it can be any value the `or`-chain selects), HTTP status code, optional
error code (`data.get('error')`), optional raw body as details. -/
structure ApiError where
  message : Json
  status_code : Int
  error_code : Option Json
  details : Option Json
deriving Repr

/-- `PassBiError.is_rate_limit_error`: membership of the error code in the
fixed three-element list, with Python `in` comparing via `==`. -/
def ApiError.is_rate_limit_error (e : ApiError) : Bool :=
  match e.error_code with
  | some v => v.eqStr "rate_limit_exceeded" || v.eqStr "daily_quota_exceeded"
      || v.eqStr "monthly_quota_exceeded"
  | none => false

/-- `PassBiError.is_auth_error`: status code 401 or 403. -/
def ApiError.is_auth_error (e : ApiError) : Bool :=
  e.status_code = 401 || e.status_code = 403

/-- The exceptions a client call can raise. -/
inductive PBError where
  /-- Python `ValueError` from a local parameter check. -/
  | validationError : String → PBError
  /-- The `PassBiError` exception. -/
  | apiError : ApiError → PBError
  /-- The `ValueError` raised by `int()` on a non-numeric rate-limit
  header inside `_extract_rate_limit_info`. -/
  | headerParseError : PBError
  /-- `response.json()` fails: the body is not valid JSON. -/
  | decodeError : PBError
  /-- `AttributeError` from `data.get` when the parsed body of a failing
  response is not a dict. -/
  | attributeError : PBError
deriving Repr

/-- The state held by a `PassBiClient` instance. -/
structure ClientState where
  api_key : String
  base_url : String
  timeout : Int
  debug : Bool
  rate_limit_info : RateLimitDict

/-- One HTTP response from the server. -/
structure HttpResponse where
  status_code : Int
  headers : Headers
  /-- The parsed JSON body; `none` models a body that is not valid JSON. -/
  body : Option Json

/-- `response.ok` in requests: true exactly when the status is below 400. -/
def HttpResponse.ok (r : HttpResponse) : Bool :=
  r.status_code < 400

/-- Outcome of dispatching one HTTP request. -/
inductive Transport where
  /-- The server replied. -/
  | response : HttpResponse → Transport
  /-- `requests.exceptions.Timeout`. -/
  | timeout : Transport
  /-- Any other `requests.exceptions.RequestException`, with its text. -/
  | reqError : String → Transport

/-- One request handed to `session.request`. -/
structure RequestSpec where
  method : String
  url : String
  params : Option (List (String × Json))
  jsonBody : Option Json
deriving Repr

/-- Result of a client call: the updated state, the requests dispatched
during the call, and the returned value or raised exception. -/
abbrev CallResult := ClientState × List RequestSpec × Except PBError Json

/-- `data.get('message') or data.get('error') or 'API request failed'`:
Python `or` keeps its left operand when truthy (a missing key gives `None`,
which is falsy). -/
def errorMessage (data : Json) : Json :=
  match data.get? "message" with
  | some m =>
    if m.truthy then m else
      match data.get? "error" with
      | some v => if v.truthy then v else .str "API request failed"
      | none => .str "API request failed"
  | none =>
    match data.get? "error" with
    | some v => if v.truthy then v else .str "API request failed"
    | none => .str "API request failed"

/-- `PassBiClient._request`.  The URL is the base URL concatenated with the
endpoint.  On a response: rate-limit extraction runs first (its
`ValueError` propagates with the state unchanged, since the dict literal is
evaluated before the assignment); then the body is parsed; then a failing
status raises `PassBiError` built from the body.  A timeout maps to
status 408 / code `timeout`; any other request exception maps to status 0 /
code `request_failed` with the underlying text appended to the message. -/
def request (st : ClientState) (method endpoint : String)
    (params : Option (List (String × Json))) (jsonBody : Option Json)
    (tr : Transport) : CallResult :=
  let url := st.base_url ++ endpoint
  let spec : RequestSpec := ⟨method, url, params, jsonBody⟩
  match tr with
  | .timeout =>
      (st, [spec], .error (.apiError
        ⟨.str "Request timeout", 408, some (.str "timeout"), none⟩))
  | .reqError msg =>
      (st, [spec], .error (.apiError
        ⟨.str ("Request failed: " ++ msg), 0, some (.str "request_failed"), none⟩))
  | .response r =>
      match extractRateLimitInfo r.headers with
      | none => (st, [spec], .error .headerParseError)
      | some rl =>
        let st1 : ClientState := { st with rate_limit_info := rl }
        match r.body with
        | none => (st1, [spec], .error .decodeError)
        | some data =>
          if r.ok then (st1, [spec], .ok data)
          else
            match data with
            | .obj fs =>
              (st1, [spec], .error (.apiError
                ⟨errorMessage (.obj fs), r.status_code,
                 (Json.obj fs).get? "error", some (.obj fs)⟩))
            | _ => (st1, [spec], .error .attributeError)

/-- `base_url.rstrip('/')`: drop every trailing slash. -/
def rstripSlash (s : String) : String :=
  ⟨(s.data.reverse.dropWhile (· = '/')).reverse⟩

/-- `api_key.startswith('pk_')`: the first three characters are `pk_`. -/
def startsWithPk (s : String) : Bool :=
  "pk_".data.isPrefixOf s.data

/-- `PassBiClient.__init__`: rejects an empty key, then a key that does not
start with the prefix `pk_`; otherwise builds the state with the base URL
normalized and `rate_limit_info` set to the empty dictionary.  No network
activity happens here: the constructor only configures the session. -/
def init (api_key base_url : String) (timeout : Int) (debug : Bool) :
    Except PBError ClientState :=
  if api_key = "" then
    .error (.validationError "API key is required")
  else if ¬ startsWithPk api_key then
    .error (.validationError "Invalid API key format. API key must start with \"pk_\"")
  else
    .ok ⟨api_key, rstripSlash base_url, timeout, debug, []⟩

/-- `PassBiClient.get_rate_limit_info`: returns the in-memory snapshot,
no network call. -/
def get_rate_limit_info (st : ClientState) : RateLimitDict :=
  st.rate_limit_info

/-- `PassBiClient.search_routes`: both coordinates must be non-empty
strings, then one GET to the route-search endpoint. -/
def search_routes (st : ClientState) (from_coords to_coords : String)
    (tr : Transport) : CallResult :=
  if from_coords = "" || to_coords = "" then
    (st, [], .error (.validationError "Both from_coords and to_coords are required"))
  else
    request st "GET" "/v2/route-search"
      (some [("from", .str from_coords), ("to", .str to_coords)]) none tr

/-- `PassBiClient.find_nearby_stops`: `lat` and `lon` must not be `None`
(`0` passes: the check is `is None`, not truthiness), then one GET with
lat/lon/radius.  Coordinates are modelled as integers. -/
def find_nearby_stops (st : ClientState) (lat lon : Option Int)
    (radius : Int) (tr : Transport) : CallResult :=
  match lat, lon with
  | some la, some lo =>
      request st "GET" "/v2/stops/nearby"
        (some [("lat", .num la), ("lon", .num lo), ("radius", .num radius)]) none tr
  | _, _ =>
      (st, [], .error (.validationError "Both lat and lon are required"))

/-- `PassBiClient.list_routes`: always sends `limit` (default 100 in the
source), adds `mode` and `agency` only when truthy (a `None` or empty
string sends no filter). -/
def list_routes (st : ClientState) (mode agency : Option String)
    (limit : Int) (tr : Transport) : CallResult :=
  let params0 : List (String × Json) := [("limit", .num limit)]
  let params1 := params0 ++
    (match mode with
     | some m => if m = "" then [] else [("mode", .str m)]
     | none => [])
  let params2 := params1 ++
    (match agency with
     | some a => if a = "" then [] else [("agency", .str a)]
     | none => [])
  request st "GET" "/v2/routes/list" (some params2) none tr

/-- `PassBiClient.create_api_key`: the name must be non-empty; `scopes`
defaults to `['read:routes']` when `None`; `expires_at` (modelled by its
ISO string) is added to the body only when present. -/
def create_api_key (st : ClientState) (name description : String)
    (scopes : Option (List String)) (expires_at : Option String)
    (tr : Transport) : CallResult :=
  if name = "" then
    (st, [], .error (.validationError "API key name is required"))
  else
    let scopes1 := scopes.getD ["read:routes"]
    let body : List (String × Json) :=
      [("name", .str name), ("description", .str description),
       ("scopes", .arr (scopes1.map .str))] ++
      (match expires_at with
       | some e => [("expires_at", .str e)]
       | none => [])
    request st "POST" "/dashboard/api-keys" none (some (.obj body)) tr

/-- `PassBiClient.revoke_api_key`: the key id must be non-empty, then one
DELETE to the key-specific path. -/
def revoke_api_key (st : ClientState) (key_id : String)
    (tr : Transport) : CallResult :=
  if key_id = "" then
    (st, [], .error (.validationError "API key ID is required"))
  else
    request st "DELETE" ("/dashboard/api-keys/" ++ key_id) none none tr

end PassBi

namespace PassBi

/-- Lookup of one query parameter by name. -/
def paramLookup (ps : List (String × Json)) (k : String) : Option Json :=
  (List.find? (fun p => p.1 = k) ps).map (·.2)

/-- A concrete valid client state, as produced by the constructor from the
key `pk_test` and the default base URL. -/
def sampleState : ClientState :=
  ⟨"pk_test", "https://api.passbi.com", 30, false, []⟩

/-- Every call into `_request` dispatches exactly one HTTP request, built
from the method, the concatenated URL, the query parameters and the body —
no retry ever duplicates it and no branch drops it. -/
theorem request_trace (st : ClientState) (method endpoint : String)
    (params : Option (List (String × Json))) (jsonBody : Option Json)
    (tr : Transport) :
    (request st method endpoint params jsonBody tr).2.1 =
      [⟨method, st.base_url ++ endpoint, params, jsonBody⟩] := by
  cases tr with
  | timeout => rfl
  | reqError msg => rfl
  | response r =>
    simp only [request]
    cases extractRateLimitInfo r.headers with
    | none => rfl
    | some rl =>
      cases r.body with
      | none => rfl
      | some data =>
        by_cases hok : r.ok
        · simp [hok]
        · simp only [hok, Bool.false_eq_true, if_false]
          cases data <;> rfl

end PassBi

namespace PassBi

/-- C2: a network timeout makes `_request` fail with an `ApiError` of
status 408 and code `timeout`; any other transport-level failure makes it
fail with an `ApiError` of status 0, code `request_failed`, whose message
includes the underlying transport error text; in either case exactly the
one request was dispatched (no retry) and the failure is surfaced, not
suppressed. -/
theorem c2_transport_failures (st : ClientState) (method endpoint : String)
    (params : Option (List (String × Json))) (jsonBody : Option Json)
    (msg : String) :
    request st method endpoint params jsonBody .timeout =
      (st, [⟨method, st.base_url ++ endpoint, params, jsonBody⟩],
        .error (.apiError ⟨.str "Request timeout", 408, some (.str "timeout"), none⟩)) ∧
    request st method endpoint params jsonBody (.reqError msg) =
      (st, [⟨method, st.base_url ++ endpoint, params, jsonBody⟩],
        .error (.apiError ⟨.str ("Request failed: " ++ msg), 0,
          some (.str "request_failed"), none⟩)) ∧
    (∃ pre post : String, "Request failed: " ++ msg = pre ++ msg ++ post) := by
  refine ⟨rfl, rfl, "Request failed: ", "", ?_⟩
  simp

/-- C6: `is_rate_limit_error` is true exactly when the error code equals
one of the three fixed strings `rate_limit_exceeded`,
`daily_quota_exceeded`, `monthly_quota_exceeded`; `is_auth_error` is true
exactly when the status code is 401 or 403. -/
theorem c6_error_classification (e : ApiError) :
    (e.is_rate_limit_error = true ↔
      (e.error_code = some (.str "rate_limit_exceeded") ∨
       e.error_code = some (.str "daily_quota_exceeded") ∨
       e.error_code = some (.str "monthly_quota_exceeded"))) ∧
    (e.is_auth_error = true ↔ (e.status_code = 401 ∨ e.status_code = 403)) := by
  constructor
  · cases h : e.error_code with
    | none => simp [ApiError.is_rate_limit_error, h]
    | some v =>
      cases v <;> simp [ApiError.is_rate_limit_error, h, Json.eqStr]
      tauto
  · simp [ApiError.is_auth_error]

/-- C4: constructing a client with an empty API key, or a key not starting
with `pk_`, fails with the `ValueError` (validation error) and its exact
message; a key starting with `pk_` always constructs successfully, with the
base URL stripped of trailing slashes and an empty rate-limit snapshot.
The constructor dispatches no request at all: no network activity can
precede the failure. -/
theorem c4_constructor_validation (api_key base_url : String)
    (timeout : Int) (debug : Bool) :
    (api_key = "" →
      init api_key base_url timeout debug =
        .error (.validationError "API key is required")) ∧
    (api_key ≠ "" → startsWithPk api_key = false →
      init api_key base_url timeout debug =
        .error (.validationError
          "Invalid API key format. API key must start with \"pk_\"")) ∧
    (startsWithPk api_key = true →
      init api_key base_url timeout debug =
        .ok ⟨api_key, rstripSlash base_url, timeout, debug, []⟩) := by
  refine ⟨fun h => by simp [init, h], fun h1 h2 => by simp [init, h1, h2], fun h => ?_⟩
  have hne : api_key ≠ "" := by
    intro he
    rw [he] at h
    simp [startsWithPk, List.isPrefixOf] at h
  simp [init, hne, h]

/-- C4 witness: the three branches at concrete keys. -/
theorem c4_constructor_validation_witness :
    init "" "https://api.passbi.com" 30 false =
      .error (.validationError "API key is required") ∧
    init "sk_live_abc" "https://api.passbi.com" 30 false =
      .error (.validationError
        "Invalid API key format. API key must start with \"pk_\"") ∧
    init "pk_live_abc" "https://api.passbi.com/" 30 false =
      .ok ⟨"pk_live_abc", "https://api.passbi.com", 30, false, []⟩ :=
  ⟨(c4_constructor_validation "" "https://api.passbi.com" 30 false).1 rfl,
   (c4_constructor_validation "sk_live_abc" "https://api.passbi.com" 30 false).2.1
     (by decide) (by decide),
   (c4_constructor_validation "pk_live_abc" "https://api.passbi.com/" 30 false).2.2
     (by decide)⟩

/-- C5: each public operation with a local parameter precondition fails on
violation with the `ValueError` (validation error) carrying the exact
message from the source — a distinct kind from `ApiError` — while
dispatching no request (the empty trace: the failure precedes any network
activity) and leaving the client state, hence its rate-limit snapshot,
unchanged. -/
theorem c5_local_validation (st : ClientState) (tr : Transport) :
    (∀ f t : String, f = "" ∨ t = "" →
      search_routes st f t tr =
        (st, [], .error (.validationError "Both from_coords and to_coords are required"))) ∧
    (∀ (la lo : Option Int) (radius : Int), la = none ∨ lo = none →
      find_nearby_stops st la lo radius tr =
        (st, [], .error (.validationError "Both lat and lon are required"))) ∧
    (∀ (description : String) (scopes : Option (List String))
        (expires_at : Option String),
      create_api_key st "" description scopes expires_at tr =
        (st, [], .error (.validationError "API key name is required"))) ∧
    revoke_api_key st "" tr =
      (st, [], .error (.validationError "API key ID is required")) := by
  refine ⟨?_, ?_, fun d sc ex => rfl, rfl⟩
  · intro f t h
    rcases h with h | h <;> simp [search_routes, h]
  · intro la lo radius h
    rcases h with h | h <;> rw [h]
    · cases lo <;> rfl
    · cases la <;> rfl

/-- C5 witness: the four validation failures at concrete inputs. -/
theorem c5_local_validation_witness :
    search_routes sampleState "" "14.6928,-17.4467" .timeout =
      (sampleState, [],
        .error (.validationError "Both from_coords and to_coords are required")) ∧
    find_nearby_stops sampleState none (some 10) 500 .timeout =
      (sampleState, [], .error (.validationError "Both lat and lon are required")) ∧
    create_api_key sampleState "" "" none none .timeout =
      (sampleState, [], .error (.validationError "API key name is required")) ∧
    revoke_api_key sampleState "" .timeout =
      (sampleState, [], .error (.validationError "API key ID is required")) :=
  ⟨(c5_local_validation sampleState .timeout).1 "" "14.6928,-17.4467" (Or.inl rfl),
   (c5_local_validation sampleState .timeout).2.1 none (some 10) 500 (Or.inl rfl),
   (c5_local_validation sampleState .timeout).2.2.1 "" none none,
   (c5_local_validation sampleState .timeout).2.2.2⟩

/-- C10: `list_routes` always dispatches exactly one GET to the
routes-list path whose query parameters contain `limit`, contain `mode`
exactly when the mode argument is truthy (non-`None` and non-empty), and
contain `agency` exactly when the agency argument is truthy — an empty
string sends no filter, exactly like an omitted argument. -/
theorem c10_list_routes_filters (st : ClientState) (mode agency : Option String)
    (limit : Int) (tr : Transport) :
    ∃ ps : List (String × Json),
      (list_routes st mode agency limit tr).2.1 =
        [⟨"GET", st.base_url ++ "/v2/routes/list", some ps, none⟩] ∧
      paramLookup ps "limit" = some (.num limit) ∧
      paramLookup ps "mode" =
        (match mode with
         | some m => if m = "" then none else some (.str m)
         | none => none) ∧
      paramLookup ps "agency" =
        (match agency with
         | some a => if a = "" then none else some (.str a)
         | none => none) := by
  refine ⟨_, request_trace st "GET" "/v2/routes/list" _ none tr, ?_, ?_, ?_⟩
  · cases mode <;> cases agency <;> simp [paramLookup, List.find?]
  · cases mode with
    | none => cases agency <;> simp [paramLookup, List.find?]
    | some m =>
      by_cases hm : m = "" <;> cases agency <;> simp [paramLookup, List.find?, hm]
  · cases agency with
    | none => cases mode <;> simp [paramLookup, List.find?]
    | some a =>
      by_cases ha : a = "" <;> cases mode <;> simp [paramLookup, List.find?, ha]

end PassBi

namespace PassBi

/-- The body of the spec's end-to-end failure scenario, plus a counter
case: its `message` field is present but empty. -/
def falsyMessageBody : Json :=
  .obj [("message", .str ""), ("error", .str "bad_request")]

/-- C1 counterexample: a 400 response whose body carries a PRESENT but
empty `message` field.  The claim says the raised error's message is the
body's `message` field whenever it is present, i.e. the empty string; the
code instead falls through the `or`-chain (an empty string is falsy in
Python) and picks the `error` field `bad_request`. -/
theorem c1_counterexample :
    (request sampleState "GET" "/v2/route-search" none none
      (.response ⟨400, [], some falsyMessageBody⟩)).2.2 =
      .error (.apiError ⟨.str "bad_request", 400, some (.str "bad_request"),
        some falsyMessageBody⟩) ∧
    falsyMessageBody.get? "message" = some (.str "") ∧
    Json.str "bad_request" ≠ Json.str "" := by
  refine ⟨rfl, rfl, ?_⟩
  simp

/-- C1 amended: for a response with a failing status whose body parses as
a JSON object and whose rate-limit headers all parse, `_request` fails
with an `ApiError` whose status code is the HTTP status, whose error code
and details are the body's `error` field and the raw body, and whose
message is the body's `message` field if present and truthy, else the
body's `error` field if present and truthy, else the fixed fallback
`API request failed`. -/
theorem c1_failing_status_api_error (st : ClientState) (method endpoint : String)
    (params : Option (List (String × Json))) (jsonBody : Option Json)
    (r : HttpResponse) (fs : List (String × Json))
    (hfail : r.ok = false) (hbody : r.body = some (.obj fs))
    (hh : (extractRateLimitInfo r.headers).isSome = true) :
    ((request st method endpoint params jsonBody (.response r)).2.2 =
      .error (.apiError ⟨errorMessage (.obj fs), r.status_code,
        (Json.obj fs).get? "error", some (.obj fs)⟩)) ∧
    (∀ m, (Json.obj fs).get? "message" = some m → m.truthy = true →
      errorMessage (.obj fs) = m) ∧
    (∀ v, (Json.obj fs).get? "message" = none →
      (Json.obj fs).get? "error" = some v → v.truthy = true →
      errorMessage (.obj fs) = v) ∧
    (∀ m v, (Json.obj fs).get? "message" = some m → m.truthy = false →
      (Json.obj fs).get? "error" = some v → v.truthy = true →
      errorMessage (.obj fs) = v) ∧
    ((Json.obj fs).get? "message" = none → (Json.obj fs).get? "error" = none →
      errorMessage (.obj fs) = .str "API request failed") ∧
    (∀ m v, (Json.obj fs).get? "message" = some m → m.truthy = false →
      (Json.obj fs).get? "error" = some v → v.truthy = false →
      errorMessage (.obj fs) = .str "API request failed") := by
  obtain ⟨rl, hrl⟩ := Option.isSome_iff_exists.mp hh
  refine ⟨?_, ?_, ?_, ?_, ?_, ?_⟩
  · simp [request, hrl, hbody, hfail]
  · intro m hm ht
    simp [errorMessage, hm, ht]
  · intro v hm he ht
    simp [errorMessage, hm, he, ht]
  · intro m v hm hmf he ht
    simp [errorMessage, hm, hmf, he, ht]
  · intro hm he
    simp [errorMessage, hm, he]
  · intro m v hm hmf he hef
    simp [errorMessage, hm, hmf, he, hef]

/-- C1 witness: the spec's own end-to-end scenario — a 400 response with
body fields `error = bad_request`, `message = invalid coordinates` yields
an `ApiError` of status 400, code `bad_request`, message
`invalid coordinates`, details the raw body. -/
theorem c1_failing_status_api_error_witness :
    HttpResponse.ok ⟨400, [], some (.obj [("error", .str "bad_request"),
      ("message", .str "invalid coordinates")])⟩ = false ∧
    (extractRateLimitInfo ([] : Headers)).isSome = true ∧
    (request sampleState "GET" "/v2/route-search" none none
      (.response ⟨400, [], some (.obj [("error", .str "bad_request"),
        ("message", .str "invalid coordinates")])⟩)).2.2 =
      .error (.apiError ⟨.str "invalid coordinates", 400, some (.str "bad_request"),
        some (.obj [("error", .str "bad_request"),
          ("message", .str "invalid coordinates")])⟩) :=
  ⟨rfl, rfl,
   (c1_failing_status_api_error sampleState "GET" "/v2/route-search" none none
     ⟨400, [], some (.obj [("error", .str "bad_request"),
       ("message", .str "invalid coordinates")])⟩
     [("error", .str "bad_request"), ("message", .str "invalid coordinates")]
     rfl rfl rfl).1⟩

/-- C3 counterexample: a header map whose `X-RateLimit-Limit-Second` value
is the non-numeric string `abc`.  The claim says the corresponding tracker
field becomes 0; instead `int('abc')` raises `ValueError` and the
extraction produces no dictionary at all. -/
theorem c3_counterexample :
    extractRateLimitInfo [("X-RateLimit-Limit-Second", "abc")] = none ∧
    headerValue? [("X-RateLimit-Limit-Second", "abc")]
      "X-RateLimit-Limit-Second" = some "abc" ∧
    (extractRateLimitInfo [("X-RateLimit-Limit-Second", "abc")]).map
      (fun rl => rlLookup rl "limit_second") = none :=
  ⟨rfl, rfl, rfl⟩

/-- C3 amended: when each of the six rate-limit headers is absent or
parses as a Python integer, extraction succeeds and sets each tracker
field, independently, to the integer value of its own header (0 when
absent); a present non-numeric header instead raises and produces no
dictionary (see the counterexample). -/
theorem c3_rate_limit_extraction (headers : Headers)
    (h1 : (headerInt headers "X-RateLimit-Limit-Second").isSome = true)
    (h2 : (headerInt headers "X-RateLimit-Remaining-Second").isSome = true)
    (h3 : (headerInt headers "X-RateLimit-Limit-Day").isSome = true)
    (h4 : (headerInt headers "X-RateLimit-Remaining-Day").isSome = true)
    (h5 : (headerInt headers "X-RateLimit-Limit-Month").isSome = true)
    (h6 : (headerInt headers "X-RateLimit-Remaining-Month").isSome = true) :
    ((extractRateLimitInfo headers).map (fun rl => rlLookup rl "limit_second") =
      some (headerInt headers "X-RateLimit-Limit-Second")) ∧
    ((extractRateLimitInfo headers).map (fun rl => rlLookup rl "remaining_second") =
      some (headerInt headers "X-RateLimit-Remaining-Second")) ∧
    ((extractRateLimitInfo headers).map (fun rl => rlLookup rl "limit_day") =
      some (headerInt headers "X-RateLimit-Limit-Day")) ∧
    ((extractRateLimitInfo headers).map (fun rl => rlLookup rl "remaining_day") =
      some (headerInt headers "X-RateLimit-Remaining-Day")) ∧
    ((extractRateLimitInfo headers).map (fun rl => rlLookup rl "limit_month") =
      some (headerInt headers "X-RateLimit-Limit-Month")) ∧
    ((extractRateLimitInfo headers).map (fun rl => rlLookup rl "remaining_month") =
      some (headerInt headers "X-RateLimit-Remaining-Month")) ∧
    (headerValue? headers "X-RateLimit-Limit-Second" = none →
      headerInt headers "X-RateLimit-Limit-Second" = some 0) := by
  obtain ⟨v1, e1⟩ := Option.isSome_iff_exists.mp h1
  obtain ⟨v2, e2⟩ := Option.isSome_iff_exists.mp h2
  obtain ⟨v3, e3⟩ := Option.isSome_iff_exists.mp h3
  obtain ⟨v4, e4⟩ := Option.isSome_iff_exists.mp h4
  obtain ⟨v5, e5⟩ := Option.isSome_iff_exists.mp h5
  obtain ⟨v6, e6⟩ := Option.isSome_iff_exists.mp h6
  refine ⟨?_, ?_, ?_, ?_, ?_, ?_, fun ha => by simp [headerInt, ha]⟩
  all_goals
    simp [extractRateLimitInfo, e1, e2, e3, e4, e5, e6, rlLookup, List.find?]

/-- C3 witness: one header present and numeric, the rest absent. -/
theorem c3_rate_limit_extraction_witness :
    (headerInt [("X-RateLimit-Limit-Second", "10")] "X-RateLimit-Limit-Second").isSome = true ∧
    (extractRateLimitInfo [("X-RateLimit-Limit-Second", "10")]).map
      (fun rl => rlLookup rl "limit_second") = some (some 10) ∧
    (extractRateLimitInfo [("X-RateLimit-Limit-Second", "10")]).map
      (fun rl => rlLookup rl "remaining_day") = some (some 0) :=
  ⟨rfl,
   (c3_rate_limit_extraction [("X-RateLimit-Limit-Second", "10")]
     rfl rfl rfl rfl rfl rfl).1,
   (c3_rate_limit_extraction [("X-RateLimit-Limit-Second", "10")]
     rfl rfl rfl rfl rfl rfl).2.2.2.1⟩

/-- C7 counterexample: a freshly constructed client.  The claim says the
snapshot has all six fields present and zero; the constructor instead sets
`rate_limit_info = {}`, so the snapshot is the EMPTY dictionary and even
`limit_second` is absent (lookup gives `none`, not `some 0`). -/
theorem c7_counterexample :
    init "pk_test" "https://api.passbi.com" 30 false = .ok sampleState ∧
    get_rate_limit_info sampleState = [] ∧
    rlLookup (get_rate_limit_info sampleState) "limit_second" = none ∧
    rlLookup (get_rate_limit_info sampleState) "remaining_month" = none :=
  ⟨rfl, rfl, rfl, rfl⟩

/-- C7 amended: for every freshly constructed client, before any request
the snapshot returned by `get_rate_limit_info` is the empty dictionary —
none of the six fields is present. -/
theorem c7_initial_snapshot_empty (api_key base_url : String) (timeout : Int)
    (debug : Bool) (st : ClientState)
    (h : init api_key base_url timeout debug = .ok st) :
    get_rate_limit_info st = [] ∧
    rlLookup (get_rate_limit_info st) "limit_second" = none ∧
    rlLookup (get_rate_limit_info st) "remaining_second" = none ∧
    rlLookup (get_rate_limit_info st) "limit_day" = none ∧
    rlLookup (get_rate_limit_info st) "remaining_day" = none ∧
    rlLookup (get_rate_limit_info st) "limit_month" = none ∧
    rlLookup (get_rate_limit_info st) "remaining_month" = none := by
  simp only [init] at h
  split at h
  · exact absurd h (by simp)
  · split at h
    · exact absurd h (by simp)
    · have hst : st = ⟨api_key, rstripSlash base_url, timeout, debug, []⟩ :=
        (Except.ok.injEq _ _).mp h.symm
      subst hst
      exact ⟨rfl, rfl, rfl, rfl, rfl, rfl, rfl⟩

/-- C7 witness: the fresh client built from `pk_test`. -/
theorem c7_initial_snapshot_empty_witness :
    init "pk_test" "https://api.passbi.com" 30 false = .ok sampleState ∧
    get_rate_limit_info sampleState = [] :=
  ⟨rfl,
   (c7_initial_snapshot_empty "pk_test" "https://api.passbi.com" 30 false
     sampleState rfl).1⟩

end PassBi

namespace PassBi

/-- A client state whose tracker still holds a value from some earlier
response, used to show when it is and is not replaced. -/
def staleState : ClientState :=
  ⟨"pk_test", "https://api.passbi.com", 30, false, [("limit_second", 7)]⟩

/-- C8 counterexample: an HTTP round trip that yields a response (status
200, decodable body) but whose `X-RateLimit-Limit-Second` header is the
non-numeric string `abc`.  The claim says the tracker is replaced
wholesale with header-derived values on every round trip that yields a
response; here `int('abc')` raises before the assignment and the tracker
keeps its previous value. -/
theorem c8_counterexample :
    (request staleState "GET" "/health" none none
      (.response ⟨200, [("X-RateLimit-Limit-Second", "abc")], some (.obj [])⟩)).1 =
      staleState ∧
    (request staleState "GET" "/health" none none
      (.response ⟨200, [("X-RateLimit-Limit-Second", "abc")], some (.obj [])⟩)).1.rate_limit_info =
      [("limit_second", 7)] ∧
    extractRateLimitInfo [("X-RateLimit-Limit-Second", "abc")] = none :=
  ⟨rfl, rfl, rfl⟩

/-- C8 amended: for every HTTP round trip yielding a response whose
rate-limit headers all parse, the tracker of the resulting state is the
record extracted from that response's headers — regardless of the previous
state (a wholesale replace, never a field-update of the old record) and
regardless of whether the status is a success or a failure, or the body
even decodes (the update precedes the raise of any `ApiError`).  Since the
embedding replaces the whole record, a snapshot previously returned by
`get_rate_limit_info` is a value the later request never mutates. -/
theorem c8_tracker_replaced (st : ClientState) (method endpoint : String)
    (params : Option (List (String × Json))) (jsonBody : Option Json)
    (r : HttpResponse)
    (h : (extractRateLimitInfo r.headers).isSome = true) :
    some ((request st method endpoint params jsonBody (.response r)).1.rate_limit_info) =
      extractRateLimitInfo r.headers := by
  obtain ⟨rl, hrl⟩ := Option.isSome_iff_exists.mp h
  simp only [request, hrl]
  cases r.body with
  | none => rfl
  | some data =>
    by_cases hok : r.ok
    · simp [hok]
    · simp only [hok, Bool.false_eq_true, if_false]
      cases data <;> rfl

/-- C8 witness: a failing (status 500) response with an undecodable body
still replaces the stale tracker with the header-derived record. -/
theorem c8_tracker_replaced_witness :
    (extractRateLimitInfo [("X-RateLimit-Remaining-Day", "42")]).isSome = true ∧
    some ((request staleState "GET" "/health" none none
      (.response ⟨500, [("X-RateLimit-Remaining-Day", "42")], none⟩)).1.rate_limit_info) =
      extractRateLimitInfo [("X-RateLimit-Remaining-Day", "42")] :=
  ⟨rfl,
   c8_tracker_replaced staleState "GET" "/health" none none
     ⟨500, [("X-RateLimit-Remaining-Day", "42")], none⟩ rfl⟩

/-- The payload of the spec's end-to-end success scenario. -/
def routesBody : Json :=
  .obj [("routes", .obj [("direct", .arr [])])]

/-- C9 counterexample: non-empty coordinates and a status-200 response
with a structured JSON body — but a non-numeric
`X-RateLimit-Limit-Day` header.  The claim says `search_routes` returns
the parsed payload; instead the `ValueError` from `int('oops')`
propagates and nothing is returned. -/
theorem c9_counterexample :
    search_routes sampleState "14.7167,-17.4677" "14.6928,-17.4467"
      (.response ⟨200, [("X-RateLimit-Limit-Day", "oops")], some routesBody⟩) =
      (sampleState,
       [⟨"GET", "https://api.passbi.com/v2/route-search",
         some [("from", .str "14.7167,-17.4677"), ("to", .str "14.6928,-17.4467")],
         none⟩],
       .error .headerParseError) ∧
    (search_routes sampleState "14.7167,-17.4677" "14.6928,-17.4467"
      (.response ⟨200, [("X-RateLimit-Limit-Day", "oops")], some routesBody⟩)).2.2 ≠
      .ok routesBody := by
  refine ⟨rfl, ?_⟩
  intro hcontra
  exact Except.noConfusion hcontra

/-- C9 amended: for every pair of non-empty coordinate strings and every
status-200 response with a structured JSON body whose rate-limit headers
all parse, `search_routes` dispatches exactly one GET to the route-search
path with `from` and `to` as its only query parameters and returns the
parsed payload exactly as received. -/
theorem c9_search_routes_success (st : ClientState) (f t : String)
    (r : HttpResponse) (data : Json)
    (hf : f ≠ "") (ht : t ≠ "") (hstatus : r.status_code = 200)
    (hbody : r.body = some data)
    (hh : (extractRateLimitInfo r.headers).isSome = true) :
    (search_routes st f t (.response r)).2.1 =
      [⟨"GET", st.base_url ++ "/v2/route-search",
        some [("from", .str f), ("to", .str t)], none⟩] ∧
    (search_routes st f t (.response r)).2.2 = .ok data := by
  obtain ⟨rl, hrl⟩ := Option.isSome_iff_exists.mp hh
  have hok : r.ok = true := by simp [HttpResponse.ok, hstatus]
  constructor
  · simp only [search_routes]
    rw [if_neg (by simp [hf, ht])]
    exact request_trace st "GET" "/v2/route-search" _ none (.response r)
  · simp [search_routes, hf, ht, request, hrl, hbody, hok]

/-- C9 witness: the spec's end-to-end scenario — a 200 response carrying
the routes payload is returned verbatim, via one GET with the two
coordinates as query parameters. -/
theorem c9_search_routes_success_witness :
    (extractRateLimitInfo ([] : Headers)).isSome = true ∧
    (search_routes sampleState "14.7167,-17.4677" "14.6928,-17.4467"
      (.response ⟨200, [], some routesBody⟩)).2.1 =
      [⟨"GET", "https://api.passbi.com/v2/route-search",
        some [("from", .str "14.7167,-17.4677"), ("to", .str "14.6928,-17.4467")],
        none⟩] ∧
    (search_routes sampleState "14.7167,-17.4677" "14.6928,-17.4467"
      (.response ⟨200, [], some routesBody⟩)).2.2 = .ok routesBody := by
  have h := c9_search_routes_success sampleState "14.7167,-17.4677" "14.6928,-17.4467"
    ⟨200, [], some routesBody⟩ routesBody (by decide) (by decide) rfl rfl rfl
  exact ⟨rfl, h.1, h.2⟩

end PassBi
